import Mathlib

/-!
Verification of the business-card-capture pipeline.

This file gives a shallow embedding, in Lean 4, of the client-side
frame-quality and normalization pipeline of the repository
(`src/app/capture/page.tsx`) and of the upload handler
(`src/app/api/upload/route.ts`), and proves properties of the embedded
definitions.

Modelling conventions:
- JavaScript number arithmetic is embedded as exact rational arithmetic
  over `ℚ`; pixel dimensions are `ℕ` and are cast to `ℚ` where the code
  divides them.
- A frame is a function from pixel coordinates to RGB samples; canvas
  acquisition and image decoding, which are environment effects, are
  embedded as explicit `Option`/`Bool` inputs.
- The React component state (`capturedImage`, `brightness`, `blurWarning`,
  `processing`, `captureCount`) is a record `CtrlState`; the async
  `handleCapture` callback is embedded as a function from the state and an
  environment to a `RunResult`, where `RunResult.hung` records that an
  awaited promise never settles and `RunResult.raised` records that an
  awaited promise rejected with no handler installed (in both cases the
  statements executed so far have taken effect and the rest never run).
-/

/-- Brightness floor: only extremely dark frames are rejected
(`BRIGHTNESS_THRESHOLD = 25` in `page.tsx`). -/
def BRIGHTNESS_THRESHOLD : ℚ := 25

/-- Blur floor: only severely blurry shots are rejected
(`BLUR_THRESHOLD = 5` in `page.tsx`). -/
def BLUR_THRESHOLD : ℚ := 5

/-- Fixed output width of a normalized artifact (`OUTPUT_W = 1024`). -/
def OUTPUT_W : ℕ := 1024

/-- Fixed output height of a normalized artifact (`OUTPUT_H = 585`). -/
def OUTPUT_H : ℕ := 585

/-- An RGB pixel sample; each channel is a number in the code
(0..255 when read from a canvas). -/
structure RGB where
  r : ℚ
  g : ℚ
  b : ℚ

/-- Luminance of a pixel, `0.299*R + 0.587*G + 0.114*B`, exactly as in
`getAverageBrightness` and `getLaplacianVariance`. -/
def luminance (c : RGB) : ℚ :=
  0.299 * c.r + 0.587 * c.g + 0.114 * c.b

/-- Downsample width used by the brightness sampler (`sampleW = 64`). -/
def sampleW : ℕ := 64

/-- Downsample height used by the brightness sampler (`sampleH = 48`). -/
def sampleH : ℕ := 48

/-- Embedding of `getAverageBrightness` (page.tsx lines 37-55).  The input
is the result of acquiring the 2d context and sampling the video into a
`sampleW × sampleH` grid: `none` when `canvas.getContext` returned `null`
(the code then returns 255), otherwise the grid of RGB samples.  The
result is the mean luminance over all sampled pixels. -/
def getAverageBrightness (ctx : Option (Fin (sampleW * sampleH) → RGB)) : ℚ :=
  match ctx with
  | none => 255
  | some data =>
      (Finset.univ.sum fun i => luminance (data i)) / ((sampleW * sampleH : ℕ) : ℚ)

/-- A decoded source image: its pixel dimensions (`img.width`, `img.height`). -/
structure Image where
  width : ℕ
  height : ℕ
  deriving DecidableEq

/-- The source crop rectangle `(sx, sy, sw, sh)` passed to `drawImage` by
`resizeImage`. -/
structure CropRect where
  sx : ℚ
  sy : ℚ
  sw : ℚ
  sh : ℚ
  deriving DecidableEq

/-- Embedding of the center-crop computation in `resizeImage`
(page.tsx lines 118-135): compare the source aspect ratio with the target
ratio `OUTPUT_W / OUTPUT_H`; when the source is wider, crop the sides,
otherwise crop top and bottom. -/
def computeCrop (w h : ℕ) : CropRect :=
  let targetRatio : ℚ := (OUTPUT_W : ℚ) / (OUTPUT_H : ℚ)
  let srcRatio : ℚ := (w : ℚ) / (h : ℚ)
  if srcRatio > targetRatio then
    let sw : ℚ := (h : ℚ) * targetRatio
    { sx := ((w : ℚ) - sw) / 2, sy := 0, sw := sw, sh := (h : ℚ) }
  else
    let sh : ℚ := (w : ℚ) / targetRatio
    { sx := 0, sy := ((h : ℚ) - sh) / 2, sw := (w : ℚ), sh := sh }

/-- A normalized artifact: the output canvas dimensions and the crop
rectangle that was drawn onto it. -/
structure Artifact where
  width : ℕ
  height : ℕ
  crop : CropRect
  deriving DecidableEq

/-- Embedding of `resizeImage` (page.tsx lines 114-149).  `decodeOk` is
whether the image decodes (`img.onload` versus `img.onerror`); `ctxOk` is
whether `canvas.getContext` succeeds.  On success the canvas has been set
to `OUTPUT_W × OUTPUT_H` and the crop rectangle drawn scaled onto it. -/
def resizeImage (decodeOk : Bool) (ctxOk : Bool) (img : Image) :
    Except String Artifact :=
  if decodeOk = false then .error "Failed to load image for resize"
  else if ctxOk = false then .error "Canvas context unavailable"
  else .ok { width := OUTPUT_W, height := OUTPUT_H,
             crop := computeCrop img.width img.height }

/-! Sharpness estimator (`getLaplacianVariance`, page.tsx lines 62-107). -/

/-- The 3×3 Laplacian response at pixel `(x, y)` of a grayscale buffer,
exactly the expression `gray[(y-1)*w+x] + gray[y*w+(x-1)] - 4*gray[y*w+x]
+ gray[y*w+(x+1)] + gray[(y+1)*w+x]` from the code, with the flat buffer
embedded as a function of `(x, y)`. -/
def lapAt (gray : ℕ → ℕ → ℚ) (x y : ℕ) : ℚ :=
  gray x (y - 1) + gray (x - 1) y + (-4) * gray x y + gray (x + 1) y + gray x (y + 1)

/-- The accumulator loop of `getLaplacianVariance` (page.tsx lines 84-99):
for `y` from `1` to `h-2` and `x` from `1` to `w-2`, accumulate
`(sum, sumSq, count)` of the Laplacian responses. -/
def lapStats (gray : ℕ → ℕ → ℚ) (w h : ℕ) : ℚ × ℚ × ℕ :=
  (List.range' 1 (h - 2)).foldl
    (fun acc y =>
      (List.range' 1 (w - 2)).foldl
        (fun acc2 x =>
          (acc2.1 + lapAt gray x y,
           acc2.2.1 + lapAt gray x y * lapAt gray x y,
           acc2.2.2 + 1))
        acc)
    (0, 0, 0)

/-- Embedding of the variance computation of `getLaplacianVariance`
(page.tsx lines 101-102): `mean = sum / count`;
`variance = sumSq / count - mean * mean`.  The grayscale buffer and its
downscaled dimensions `w × h` are taken as inputs (in the code `w = 160`
and `h = round(imgH / imgW * 160)`; the conversion of the decoded pixels
to grayscale uses `luminance`). -/
def getLaplacianVariance (gray : ℕ → ℕ → ℚ) (w h : ℕ) : ℚ :=
  let s := lapStats gray w h
  let mean : ℚ := s.1 / ((s.2.2 : ℕ) : ℚ)
  s.2.1 / ((s.2.2 : ℕ) : ℚ) - mean * mean

/-- The interior pixel coordinates visited by the convolution loops, in
loop order: `y` ranges over `1..h-2` (outer), `x` over `1..w-2` (inner). -/
def interiorCoords (w h : ℕ) : List (ℕ × ℕ) :=
  (List.range' 1 (h - 2)).flatMap fun y =>
    (List.range' 1 (w - 2)).map fun x => (x, y)

/-- The list of Laplacian responses, one per interior pixel, in loop
order. -/
def lapResponses (gray : ℕ → ℕ → ℚ) (w h : ℕ) : List ℚ :=
  (interiorCoords w h).map fun p => lapAt gray p.1 p.2

/-! Upload handler (`src/app/api/upload/route.ts`). -/

/-- Embedding of the `ALLOWED_TYPES` record: maps an allowed MIME type to
its file extension, `none` for every other type. -/
def ALLOWED_TYPES (t : String) : Option String :=
  if t = "image/png" then some ".png"
  else if t = "image/jpeg" then some ".jpg"
  else if t = "image/webp" then some ".webp"
  else none

/-- Maximum accepted upload size in bytes (`10 * 1024 * 1024`). -/
def MAX_FILE_SIZE : ℕ := 10 * 1024 * 1024

/-- The file part of an upload request: its MIME type and size in bytes. -/
structure UploadFile where
  type : String
  size : ℕ

/-- Response of the upload handler: either a JSON success payload with the
generated filename, URL and stored size (HTTP 201), or an error payload
with an HTTP status. -/
inductive UploadResponse where
  | ok (filename : String) (url : String) (size : ℕ) (status : ℕ)
  | err (message : String) (status : ℕ)
  deriving DecidableEq

/-- Embedding of the upload `POST` handler (route.ts lines 16-71).  `file`
is the form field (`none` when absent), `uuid` the generated name stem.
The second component records whether a file was written to disk. -/
def uploadPOST (file : Option UploadFile) (uuid : String) :
    UploadResponse × Bool :=
  match file with
  | none => (.err "No image file provided" 400, false)
  | some f =>
      match ALLOWED_TYPES f.type with
      | none => (.err "Unsupported file type" 400, false)
      | some ext =>
          if f.size > MAX_FILE_SIZE then (.err "File too large" 400, false)
          else
            let filename := uuid ++ ext
            (.ok filename ("/uploads/" ++ filename) f.size 201, true)

/-! Capture controller (`CapturePage`, page.tsx lines 151-212). -/

/-- The React component state of `CapturePage`: the held artifact
(`capturedImage`), the last polled brightness, the blur warning message,
the `processing` flag, and the capture counter. -/
structure CtrlState where
  capturedImage : Option Artifact
  brightness : ℚ
  blurWarning : Option String
  processing : Bool
  captureCount : ℕ
  deriving DecidableEq

/-- The `tooDark` boolean (page.tsx line 160):
`brightness < BRIGHTNESS_THRESHOLD`. -/
def tooDark (s : CtrlState) : Bool :=
  s.brightness < BRIGHTNESS_THRESHOLD

/-- The blur warning message set on rejection (page.tsx line 197). -/
def blurMsg : String := "Too blurry — hold your phone steady and try again"

/-- The environment of one capture attempt: the screenshot (if any), and
the behaviour of the two image decodes and the resize canvas context.
`gray`, `grayW`, `grayH` are the downscaled grayscale copy of the still
that `getLaplacianVariance` would build when its decode succeeds. -/
structure CaptureEnv where
  screenshot : Option Image
  lapDecodeOk : Bool
  gray : ℕ → ℕ → ℚ
  grayW : ℕ
  grayH : ℕ
  resizeDecodeOk : Bool
  resizeCtxOk : Bool

/-- Outcome of one run of `handleCapture` that ran to completion. -/
inductive Outcome where
  | ignored
  | noScreenshot
  | rejectedBlur
  | accepted
  deriving DecidableEq

/-- Result of one run of the async `handleCapture` callback.  `done s o`:
the callback ran to completion leaving state `s`.  `hung s`: an awaited
promise never settles (the statements before the `await` left state `s`
and the rest never run).  `raised s`: an awaited promise rejected and no
handler catches it, so the statements after the `await` — including
`setProcessing(false)` — never run. -/
inductive RunResult where
  | done (s : CtrlState) (o : Outcome)
  | hung (s : CtrlState)
  | raised (s : CtrlState)
  deriving DecidableEq

/-- The state after the synchronous prefix of a capture attempt that
passed the guard: `setBlurWarning(null); setProcessing(true)`
(page.tsx lines 185-186). -/
def evalState (s : CtrlState) : CtrlState :=
  { s with blurWarning := none, processing := true }

/-- Embedding of `getLaplacianVariance`'s promise behaviour as seen by its
awaiting caller: the executor installs only `img.onload` and no
`img.onerror` handler, so when the still fails to decode the promise never
settles (`none`); otherwise it resolves with the variance. -/
def lapPromise (env : CaptureEnv) : Option ℚ :=
  if env.lapDecodeOk = false then none
  else some (getLaplacianVariance env.gray env.grayW env.grayH)

/-- The continuation of `handleCapture` from the first `await` on
(page.tsx lines 194-211), run from state `s1` with the screenshot `img`
in flight.  A blur score below `BLUR_THRESHOLD` sets the warning and
clears `processing`; otherwise the still is resized — and since
`handleCapture` has no `try`/`catch`, a rejection from `resizeImage`
propagates and `setProcessing(false)` is never executed. -/
def captureFinish (s1 : CtrlState) (img : Image) (env : CaptureEnv) :
    RunResult :=
  match lapPromise env with
  | none => .hung s1
  | some variance =>
      if variance < BLUR_THRESHOLD then
        .done { s1 with blurWarning := some blurMsg, processing := false }
          .rejectedBlur
      else
        match resizeImage env.resizeDecodeOk env.resizeCtxOk img with
        | .error _ => .raised s1
        | .ok art =>
            .done { s1 with capturedImage := some art,
                            captureCount := s1.captureCount + 1,
                            processing := false }
              .accepted

/-- Embedding of `handleCapture` (page.tsx lines 183-212).  The guard
`if (tooDark || processing) return` causes no state change; otherwise the
warning is cleared and `processing` set, the screenshot is taken (absence
clears `processing` and returns), and the attempt continues in
`captureFinish`. -/
def handleCapture (s : CtrlState) (env : CaptureEnv) : RunResult :=
  if tooDark s || s.processing then .done s .ignored
  else
    match env.screenshot with
    | none => .done { evalState s with processing := false } .noScreenshot
    | some img => captureFinish (evalState s) img env

/-! Concrete fixtures used by witnesses and concrete evaluations. -/

/-- A 1920×1080 landscape source frame. -/
def imgTest : Image := { width := 1920, height := 1080 }

/-- A grayscale buffer with a single bright pixel at `(1,1)`; its
Laplacian responses on a `4 × 3` grid are not all equal, so the variance
is positive. -/
def graySharp : ℕ → ℕ → ℚ := fun x y => if x = 1 ∧ y = 1 then 100 else 0

/-- A live controller state: no held artifact, brightness 100, idle. -/
def sLive : CtrlState :=
  { capturedImage := none, brightness := 100, blurWarning := none,
    processing := false, captureCount := 0 }

/-- An environment in which every effect succeeds. -/
def envOk : CaptureEnv :=
  { screenshot := some imgTest, lapDecodeOk := true, gray := graySharp,
    grayW := 4, grayH := 3, resizeDecodeOk := true, resizeCtxOk := true }

/-- An environment in which the still fails to decode inside
`getLaplacianVariance` (whose promise then never settles). -/
def envLapFail : CaptureEnv := { envOk with lapDecodeOk := false }

/-- An environment in which `resizeImage` cannot acquire a canvas context
and rejects. -/
def envResizeFail : CaptureEnv := { envOk with resizeCtxOk := false }

/-! Helper lemmas about the accumulator loops. -/

/-- A fold that componentwise accumulates two rational sums and a constant
count increment equals the sums over the mapped list plus `length * k`. -/
theorem foldl_triple_k (f g : ℕ → ℚ) (k : ℕ) (l : List ℕ) (p : ℚ × ℚ × ℕ) :
    l.foldl (fun acc x => (acc.1 + f x, acc.2.1 + g x, acc.2.2 + k)) p
      = (p.1 + (l.map f).sum, p.2.1 + (l.map g).sum, p.2.2 + l.length * k) := by
  induction l generalizing p with
  | nil => simp
  | cons x xs ih =>
      rw [List.foldl_cons, ih]
      simp only [List.map_cons, List.sum_cons, List.length_cons, Prod.mk.injEq]
      exact ⟨by ring, by ring, by ring⟩

/-- Sum of a flattened list of lists of rationals, grouped by the outer
index. -/
theorem sum_flatMap_rat (l : List ℕ) (f : ℕ → List ℚ) :
    (l.flatMap f).sum = (l.map fun y => (f y).sum).sum := by
  induction l with
  | nil => simp
  | cons x xs ih => simp [ih]

/-- The loop accumulator of `getLaplacianVariance` computes the sum, the
sum of squares, and the length of the response list. -/
theorem lapStats_flat (gray : ℕ → ℕ → ℚ) (w h : ℕ) :
    lapStats gray w h =
      ((lapResponses gray w h).sum,
       ((lapResponses gray w h).map fun r => r * r).sum,
       (lapResponses gray w h).length) := by
  have hinner : ∀ (y : ℕ) (p : ℚ × ℚ × ℕ),
      (List.range' 1 (w - 2)).foldl
        (fun acc2 x =>
          (acc2.1 + lapAt gray x y,
           acc2.2.1 + lapAt gray x y * lapAt gray x y,
           acc2.2.2 + 1)) p
        = (p.1 + ((List.range' 1 (w - 2)).map fun x => lapAt gray x y).sum,
           p.2.1 + ((List.range' 1 (w - 2)).map fun x =>
               lapAt gray x y * lapAt gray x y).sum,
           p.2.2 + (w - 2)) := by
    intro y p
    simpa using
      foldl_triple_k (fun x => lapAt gray x y)
        (fun x => lapAt gray x y * lapAt gray x y) 1 (List.range' 1 (w - 2)) p
  unfold lapStats
  simp only [hinner]
  refine (foldl_triple_k
      (fun y => ((List.range' 1 (w - 2)).map fun x => lapAt gray x y).sum)
      (fun y => ((List.range' 1 (w - 2)).map fun x =>
          lapAt gray x y * lapAt gray x y).sum)
      (w - 2) (List.range' 1 (h - 2)) (0, 0, 0)).trans ?_
  simp only [Prod.mk.injEq, zero_add]
  refine ⟨?_, ?_, ?_⟩
  · rw [lapResponses, interiorCoords, List.map_flatMap, sum_flatMap_rat]
    simp [List.map_map, Function.comp_def]
  · rw [lapResponses, interiorCoords, List.map_flatMap, List.map_flatMap,
      sum_flatMap_rat]
    simp [List.map_map, Function.comp_def]
  · rw [lapResponses, interiorCoords, List.length_map, List.length_flatMap]
    simp [Function.comp_def]

/-! Claim theorems. -/

/-- C1: For every source frame of positive width and height, the
normalizer (`resizeImage`) produces an artifact whose dimensions are
exactly 1024×585 pixels, independent of the source frame's width, height,
or orientation. -/
theorem resize_output_dims_fixed (img : Image)
    (hw : 0 < img.width) (hh : 0 < img.height) :
    ∃ a : Artifact, resizeImage true true img = Except.ok a ∧
      a.width = OUTPUT_W ∧ a.height = OUTPUT_H ∧
      a.width = 1024 ∧ a.height = 585 :=
  ⟨_, rfl, rfl, rfl, rfl, rfl⟩

/-- Witness for C1, at a landscape and at a portrait frame. -/
theorem resize_output_dims_fixed_witness :
    (∃ a : Artifact, resizeImage true true { width := 1920, height := 1080 } = Except.ok a ∧
      a.width = OUTPUT_W ∧ a.height = OUTPUT_H ∧ a.width = 1024 ∧ a.height = 585) ∧
    (∃ a : Artifact, resizeImage true true { width := 1080, height := 1920 } = Except.ok a ∧
      a.width = OUTPUT_W ∧ a.height = OUTPUT_H ∧ a.width = 1024 ∧ a.height = 585) :=
  ⟨resize_output_dims_fixed { width := 1920, height := 1080 } (by decide) (by decide),
   resize_output_dims_fixed { width := 1080, height := 1920 } (by decide) (by decide)⟩

/-- C2: when the source aspect ratio exceeds the target ratio the crop
keeps the full height, has width `srcH × (1024/585)` and a centered
horizontal offset removing equal amounts left and right; otherwise it
keeps the full width, has height `srcW / (1024/585)` and a centered
vertical offset removing equal amounts top and bottom. -/
theorem crop_center_symmetric (w h : ℕ) (hw : 0 < w) (hh : 0 < h) :
    (((w : ℚ) / (h : ℚ) > (OUTPUT_W : ℚ) / (OUTPUT_H : ℚ)) →
      (computeCrop w h).sh = (h : ℚ) ∧
      (computeCrop w h).sw = (h : ℚ) * ((OUTPUT_W : ℚ) / (OUTPUT_H : ℚ)) ∧
      (computeCrop w h).sx = ((w : ℚ) - (computeCrop w h).sw) / 2 ∧
      (computeCrop w h).sx = (w : ℚ) - ((computeCrop w h).sx + (computeCrop w h).sw) ∧
      (computeCrop w h).sy = 0) ∧
    (¬ ((w : ℚ) / (h : ℚ) > (OUTPUT_W : ℚ) / (OUTPUT_H : ℚ)) →
      (computeCrop w h).sw = (w : ℚ) ∧
      (computeCrop w h).sh = (w : ℚ) / ((OUTPUT_W : ℚ) / (OUTPUT_H : ℚ)) ∧
      (computeCrop w h).sy = ((h : ℚ) - (computeCrop w h).sh) / 2 ∧
      (computeCrop w h).sy = (h : ℚ) - ((computeCrop w h).sy + (computeCrop w h).sh) ∧
      (computeCrop w h).sx = 0) := by
  constructor
  · intro hc
    refine ⟨?_, ?_, ?_, ?_, ?_⟩ <;>
      simp only [computeCrop, if_pos hc] <;> ring
  · intro hc
    refine ⟨?_, ?_, ?_, ?_, ?_⟩ <;>
      simp only [computeCrop, if_neg hc] <;> ring

/-- Witness for C2: a 16:9 frame is relatively wider than 1024:585, a 9:16
frame is relatively taller. -/
theorem crop_center_symmetric_witness :
    ((computeCrop 1920 1080).sh = (1080 : ℚ) ∧
      (computeCrop 1920 1080).sw = (1080 : ℚ) * ((OUTPUT_W : ℚ) / (OUTPUT_H : ℚ)) ∧
      (computeCrop 1920 1080).sx = ((1920 : ℚ) - (computeCrop 1920 1080).sw) / 2 ∧
      (computeCrop 1920 1080).sx =
        (1920 : ℚ) - ((computeCrop 1920 1080).sx + (computeCrop 1920 1080).sw) ∧
      (computeCrop 1920 1080).sy = 0) ∧
    ((computeCrop 1080 1920).sw = (1080 : ℚ) ∧
      (computeCrop 1080 1920).sh = (1080 : ℚ) / ((OUTPUT_W : ℚ) / (OUTPUT_H : ℚ)) ∧
      (computeCrop 1080 1920).sy = ((1920 : ℚ) - (computeCrop 1080 1920).sh) / 2 ∧
      (computeCrop 1080 1920).sy =
        (1920 : ℚ) - ((computeCrop 1080 1920).sy + (computeCrop 1080 1920).sh) ∧
      (computeCrop 1080 1920).sx = 0) := by
  constructor
  · have := (crop_center_symmetric 1920 1080 (by decide) (by decide)).1
      (by norm_num [OUTPUT_W, OUTPUT_H])
    simpa using this
  · have := (crop_center_symmetric 1080 1920 (by decide) (by decide)).2
      (by norm_num [OUTPUT_W, OUTPUT_H])
    simpa using this

/-- C6: normalizing an input that is already exactly 1024×585 is a
round-trip on dimensions: the crop rectangle is the full source
(`sx = sy = 0`, `sw = 1024`, `sh = 585`) and the drawn scale factor is
exactly 1 on both axes. -/
theorem crop_roundtrip_1024x585 :
    computeCrop 1024 585 = { sx := 0, sy := 0, sw := 1024, sh := 585 } ∧
    (OUTPUT_W : ℚ) / (computeCrop 1024 585).sw = 1 ∧
    (OUTPUT_H : ℚ) / (computeCrop 1024 585).sh = 1 := by
  refine ⟨?_, ?_, ?_⟩ <;>
    norm_num [computeCrop, OUTPUT_W, OUTPUT_H, CropRect.mk.injEq]

/-- C7: a uniformly black sampled frame has mean brightness exactly 0 and
a uniformly white one exactly 255 (mean over all 64×48 sampled pixels of
`0.299R + 0.587G + 0.114B`). -/
theorem brightness_black_and_white :
    getAverageBrightness (some fun _ => { r := 0, g := 0, b := 0 }) = 0 ∧
    getAverageBrightness (some fun _ => { r := 255, g := 255, b := 255 }) = 255 := by
  have hconst : ∀ c : RGB, getAverageBrightness (some fun _ => c)
      = (((sampleW * sampleH : ℕ) : ℚ) * luminance c) / ((sampleW * sampleH : ℕ) : ℚ) := by
    intro c
    rw [getAverageBrightness]
    rw [Finset.sum_const, Finset.card_univ, Fintype.card_fin, nsmul_eq_mul]
  rw [hconst, hconst]
  constructor <;> norm_num [luminance, sampleW, sampleH]

/-- C3: the sharpness estimator convolves the Laplacian kernel only over
interior pixels (`x` in `1..w-2`, `y` in `1..h-2`), the number of
responses is exactly `(w-2)*(h-2)`, and the returned score equals
`mean(response²) - mean(response)²` over those responses. -/
theorem laplacian_interior_variance (gray : ℕ → ℕ → ℚ) (w h : ℕ)
    (hw : 3 ≤ w) (hh : 3 ≤ h) :
    (∀ p : ℕ × ℕ, p ∈ interiorCoords w h ↔
      (1 ≤ p.1 ∧ p.1 ≤ w - 2) ∧ (1 ≤ p.2 ∧ p.2 ≤ h - 2)) ∧
    lapResponses gray w h = (interiorCoords w h).map (fun p => lapAt gray p.1 p.2) ∧
    (lapResponses gray w h).length = (w - 2) * (h - 2) ∧
    getLaplacianVariance gray w h =
      ((lapResponses gray w h).map fun r => r * r).sum / (((w - 2) * (h - 2) : ℕ) : ℚ)
        - ((lapResponses gray w h).sum / (((w - 2) * (h - 2) : ℕ) : ℚ)) ^ 2 := by
  have hlen : (lapResponses gray w h).length = (w - 2) * (h - 2) := by
    rw [lapResponses, interiorCoords, List.length_map, List.length_flatMap]
    simp [Function.comp_def, Nat.mul_comm]
  refine ⟨?_, rfl, hlen, ?_⟩
  · intro p
    constructor
    · intro hp
      rw [interiorCoords, List.mem_flatMap] at hp
      obtain ⟨y, hy, hx⟩ := hp
      rw [List.mem_map] at hx
      obtain ⟨x, hx, rfl⟩ := hx
      rw [List.mem_range'] at hy hx
      obtain ⟨i, hi, rfl⟩ := hy
      obtain ⟨j, hj, rfl⟩ := hx
      constructor <;> constructor <;> omega
    · intro ⟨⟨hx1, hx2⟩, hy1, hy2⟩
      rw [interiorCoords, List.mem_flatMap]
      refine ⟨p.2, ?_, ?_⟩
      · rw [List.mem_range']
        exact ⟨p.2 - 1, by omega, by omega⟩
      · rw [List.mem_map]
        refine ⟨p.1, ?_, rfl⟩
        rw [List.mem_range']
        exact ⟨p.1 - 1, by omega, by omega⟩
  · rw [getLaplacianVariance, lapStats_flat]
    rw [hlen]
    ring

/-- Witness for C3 at `w = h = 3` (four boundary rows/columns, a single
interior pixel). -/
theorem laplacian_interior_variance_witness :
    (∀ p : ℕ × ℕ, p ∈ interiorCoords 3 3 ↔
      (1 ≤ p.1 ∧ p.1 ≤ 3 - 2) ∧ (1 ≤ p.2 ∧ p.2 ≤ 3 - 2)) ∧
    lapResponses graySharp 3 3 = (interiorCoords 3 3).map (fun p => lapAt graySharp p.1 p.2) ∧
    (lapResponses graySharp 3 3).length = (3 - 2) * (3 - 2) ∧
    getLaplacianVariance graySharp 3 3 =
      ((lapResponses graySharp 3 3).map fun r => r * r).sum / (((3 - 2) * (3 - 2) : ℕ) : ℚ)
        - ((lapResponses graySharp 3 3).sum / (((3 - 2) * (3 - 2) : ℕ) : ℚ)) ^ 2 :=
  laplacian_interior_variance graySharp 3 3 (by decide) (by decide)

/-- C9: an upload whose MIME type is PNG, JPEG or WEBP and whose size is
at most 10 MB succeeds with a filename, a URL reference and the stored
size; a disallowed type or a size strictly over 10 MB yields an HTTP 400
validation error and writes no file. -/
theorem upload_validation (f : UploadFile) (uuid : String) :
    ((ALLOWED_TYPES f.type).isSome = true → f.size ≤ MAX_FILE_SIZE →
      ∃ ext, ALLOWED_TYPES f.type = some ext ∧
        uploadPOST (some f) uuid =
          (.ok (uuid ++ ext) ("/uploads/" ++ (uuid ++ ext)) f.size 201, true)) ∧
    (ALLOWED_TYPES f.type = none →
      uploadPOST (some f) uuid = (.err "Unsupported file type" 400, false)) ∧
    (f.size > MAX_FILE_SIZE →
      ∃ m, uploadPOST (some f) uuid = (.err m 400, false)) := by
  refine ⟨?_, ?_, ?_⟩
  · intro htype hsize
    obtain ⟨ext, hext⟩ := Option.isSome_iff_exists.mp htype
    refine ⟨ext, hext, ?_⟩
    rw [uploadPOST]
    rw [hext]
    simp [Nat.not_lt.mpr hsize]
  · intro hnone
    rw [uploadPOST, hnone]
  · intro hsize
    rw [uploadPOST]
    cases hext : ALLOWED_TYPES f.type with
    | none => exact ⟨"Unsupported file type", rfl⟩
    | some ext =>
        refine ⟨"File too large", ?_⟩
        simp [hsize]

/-- Witness for C9: a small PNG succeeds, a text file and an oversized
PNG are rejected. -/
theorem upload_validation_witness :
    (∃ ext, ALLOWED_TYPES "image/png" = some ext ∧
      uploadPOST (some { type := "image/png", size := 5000 }) "u" =
        (.ok ("u" ++ ext) ("/uploads/" ++ ("u" ++ ext)) 5000 201, true)) ∧
    uploadPOST (some { type := "text/plain", size := 5000 }) "u" =
      (.err "Unsupported file type" 400, false) ∧
    (∃ m, uploadPOST (some { type := "image/png", size := 10 * 1024 * 1024 + 1 }) "u" =
      (.err m 400, false)) :=
  ⟨(upload_validation { type := "image/png", size := 5000 } "u").1 (by decide)
      (by norm_num [MAX_FILE_SIZE]),
   (upload_validation { type := "text/plain", size := 5000 } "u").2.1 (by decide),
   (upload_validation { type := "image/png", size := 10 * 1024 * 1024 + 1 } "u").2.2
      (by norm_num [MAX_FILE_SIZE])⟩

/-- C4: triggering capture while the frame is too dark or while an
evaluation is in flight causes no state transition; a first trigger that
passes the guard suspends in the evaluating state with `processing` set,
a second trigger during that flight is a no-op on the unchanged state, and
the one in-flight evaluation finishes with exactly one
accepted-or-rejected outcome. -/
theorem capture_guard_single_evaluation (s : CtrlState) (env1 env2 : CaptureEnv) :
    ((tooDark s = true ∨ s.processing = true) →
      handleCapture s env1 = .done s .ignored) ∧
    (∀ img : Image,
      tooDark s = false → s.processing = false → env1.screenshot = some img →
        handleCapture s env1 = captureFinish (evalState s) img env1 ∧
        (evalState s).processing = true ∧
        handleCapture (evalState s) env2 = .done (evalState s) .ignored ∧
        (env1.lapDecodeOk = true → env1.resizeDecodeOk = true →
          env1.resizeCtxOk = true →
          ∃ (s2 : CtrlState) (o : Outcome),
            captureFinish (evalState s) img env1 = .done s2 o ∧
            (o = .accepted ∨ o = .rejectedBlur) ∧ s2.processing = false)) := by
  constructor
  · intro hguard
    have hg : (tooDark s || s.processing) = true := by
      rcases hguard with hd | hp
      · simp [hd]
      · simp [hp]
    simp [handleCapture, hg]
  · intro img hd hp hshot
    have hg : (tooDark s || s.processing) = false := by simp [hd, hp]
    refine ⟨?_, rfl, ?_, ?_⟩
    · simp [handleCapture, hg, hshot]
    · simp [handleCapture, evalState]
    · intro h1 h2 h3
      have hlp : lapPromise env1 =
          some (getLaplacianVariance env1.gray env1.grayW env1.grayH) := by
        rw [lapPromise, h1]
        simp
      have hres : resizeImage env1.resizeDecodeOk env1.resizeCtxOk img =
          .ok { width := OUTPUT_W, height := OUTPUT_H,
                crop := computeCrop img.width img.height } := by
        rw [resizeImage, h2, h3]
        simp
      simp only [captureFinish, hlp]
      by_cases hv :
          getLaplacianVariance env1.gray env1.grayW env1.grayH < BLUR_THRESHOLD
      · rw [if_pos hv]
        exact ⟨_, _, rfl, Or.inr rfl, rfl⟩
      · rw [if_neg hv]
        simp only [hres]
        exact ⟨_, _, rfl, Or.inl rfl, rfl⟩

/-- Witness for C4: from the live state with an available screenshot, the
guard blocks a second trigger during the flight and the single in-flight
evaluation completes with one accepted-or-rejected outcome. -/
theorem capture_guard_single_evaluation_witness :
    (handleCapture (evalState sLive) envOk = .done (evalState sLive) .ignored) ∧
    ∃ (s2 : CtrlState) (o : Outcome),
      captureFinish (evalState sLive) imgTest envOk = .done s2 o ∧
      (o = .accepted ∨ o = .rejectedBlur) ∧ s2.processing = false := by
  have h := (capture_guard_single_evaluation sLive envOk envOk).2 imgTest
    (by decide) rfl rfl
  exact ⟨h.2.2.1, h.2.2.2 rfl rfl rfl⟩

/-- C8: a uniformly flat image has Laplacian variance exactly 0, which is
below the blur floor of 5, so the capture attempt is rejected as blurry
(warning set, `processing` cleared, no artifact stored). -/
theorem flat_image_rejected_blurry (g : ℚ) (w h : ℕ) (hw : 3 ≤ w) (hh : 3 ≤ h)
    (s : CtrlState) (env : CaptureEnv) (img : Image) :
    getLaplacianVariance (fun _ _ => g) w h = 0 ∧
    getLaplacianVariance (fun _ _ => g) w h < BLUR_THRESHOLD ∧
    (tooDark s = false → s.processing = false → env.screenshot = some img →
      env.lapDecodeOk = true → env.gray = (fun _ _ => g) →
      env.grayW = w → env.grayH = h →
      handleCapture s env =
        .done { evalState s with blurWarning := some blurMsg, processing := false }
          .rejectedBlur) := by
  have hlap : ∀ x y : ℕ, lapAt (fun _ _ => g) x y = 0 := by
    intro x y
    rw [lapAt]
    ring
  have hzero : getLaplacianVariance (fun _ _ => g) w h = 0 := by
    rw [getLaplacianVariance, lapStats_flat]
    simp [lapResponses, hlap]
  have hblur : getLaplacianVariance (fun _ _ => g) w h < BLUR_THRESHOLD := by
    rw [hzero, BLUR_THRESHOLD]
    norm_num
  refine ⟨hzero, hblur, ?_⟩
  intro hd hp hshot h1 hgray hgw hgh
  have hg : (tooDark s || s.processing) = false := by simp [hd, hp]
  have hlp : lapPromise env = some (getLaplacianVariance (fun _ _ => g) w h) := by
    rw [lapPromise, h1]
    simp [hgray, hgw, hgh]
  simp only [handleCapture, hg, Bool.false_eq_true, if_false, hshot]
  simp only [captureFinish, hlp]
  rw [if_pos hblur]

/-- Witness for C8 at a 160×90 flat downscale from the live state. -/
theorem flat_image_rejected_blurry_witness :
    getLaplacianVariance (fun _ _ => (7 : ℚ)) 160 90 = 0 ∧
    getLaplacianVariance (fun _ _ => (7 : ℚ)) 160 90 < BLUR_THRESHOLD ∧
    handleCapture sLive
        { screenshot := some imgTest, lapDecodeOk := true,
          gray := fun _ _ => (7 : ℚ), grayW := 160, grayH := 90,
          resizeDecodeOk := true, resizeCtxOk := true } =
      .done { evalState sLive with blurWarning := some blurMsg, processing := false }
        .rejectedBlur := by
  have h := flat_image_rejected_blurry (7 : ℚ) 160 90 (by decide) (by decide)
    sLive
    { screenshot := some imgTest, lapDecodeOk := true,
      gray := fun _ _ => (7 : ℚ), grayW := 160, grayH := 90,
      resizeDecodeOk := true, resizeCtxOk := true } imgTest
  exact ⟨h.1, h.2.1, h.2.2 (by decide) rfl rfl rfl rfl rfl rfl⟩

/-- C10: when the brightness sampler cannot acquire a 2d context it
returns 255 — the maximum score — rather than an error, so such a frame is
never classified as too dark and the brightness gate never blocks the
capture action. -/
theorem ctx_failure_brightness_maximal (s : CtrlState) (env : CaptureEnv) :
    getAverageBrightness none = 255 ∧
    ¬ (getAverageBrightness none < BRIGHTNESS_THRESHOLD) ∧
    (s.brightness = getAverageBrightness none → s.processing = false →
      tooDark s = false ∧
      ∀ s2 : CtrlState, handleCapture s env ≠ RunResult.done s2 Outcome.ignored) := by
  refine ⟨rfl, ?_, ?_⟩
  · rw [getAverageBrightness, BRIGHTNESS_THRESHOLD]
    norm_num
  · intro hb hp
    have hd : tooDark s = false := by
      rw [tooDark, hb]
      decide
    refine ⟨hd, ?_⟩
    intro s2 hcontra
    have hg : (tooDark s || s.processing) = false := by simp [hd, hp]
    cases hshot : env.screenshot with
    | none =>
        simp only [handleCapture, hg, Bool.false_eq_true, if_false, hshot] at hcontra
        simp at hcontra
    | some img =>
        simp only [handleCapture, hg, Bool.false_eq_true, if_false, hshot] at hcontra
        cases hlp : lapPromise env with
        | none =>
            simp only [captureFinish, hlp] at hcontra
            exact RunResult.noConfusion hcontra
        | some v =>
            simp only [captureFinish, hlp] at hcontra
            by_cases hv : v < BLUR_THRESHOLD
            · rw [if_pos hv] at hcontra
              simp at hcontra
            · rw [if_neg hv] at hcontra
              cases hres : resizeImage env.resizeDecodeOk env.resizeCtxOk img with
              | error e =>
                  simp only [hres] at hcontra
                  exact RunResult.noConfusion hcontra
              | ok art =>
                  simp only [hres] at hcontra
                  simp at hcontra

/-- Witness for C10 at a concrete state whose brightness came from a
failed context acquisition. -/
theorem ctx_failure_brightness_maximal_witness :
    tooDark { capturedImage := none, brightness := getAverageBrightness none,
              blurWarning := none, processing := false, captureCount := 0 } = false ∧
    ∀ s2 : CtrlState,
      handleCapture
          { capturedImage := none, brightness := getAverageBrightness none,
            blurWarning := none, processing := false, captureCount := 0 } envOk
        ≠ RunResult.done s2 Outcome.ignored :=
  (ctx_failure_brightness_maximal
      { capturedImage := none, brightness := getAverageBrightness none,
        blurWarning := none, processing := false, captureCount := 0 } envOk).2.2
    rfl rfl

/-- C5 (refuting evaluation): on a decode failure during sharpness
estimation the awaited promise never settles, and on a rendering-context
failure during normalization the rejection propagates uncaught; in both
cases `setProcessing(false)` never runs, so the controller is left with
`processing = true` — it does not revert to a usable `Live` state. -/
theorem capture_failure_leaves_processing_stuck :
    (handleCapture sLive envLapFail = .hung (evalState sLive) ∧
      (evalState sLive).processing = true) ∧
    (handleCapture sLive envResizeFail = .raised (evalState sLive) ∧
      (evalState sLive).processing = true) := by
  have hg : (tooDark sLive || sLive.processing) = false := by decide
  have hstats : lapStats graySharp 4 3 = (-300, 170000, 2) := by
    have h1 : List.range' 1 (3 - 2) = [1] := rfl
    have h2 : List.range' 1 (4 - 2) = [1, 2] := rfl
    rw [lapStats, h1, h2]
    norm_num [lapAt, graySharp]
  have hvar : getLaplacianVariance graySharp 4 3 = 62500 := by
    rw [getLaplacianVariance, hstats]
    norm_num
  have hnb : ¬ (getLaplacianVariance graySharp 4 3 < BLUR_THRESHOLD) := by
    rw [hvar, BLUR_THRESHOLD]
    norm_num
  refine ⟨⟨?_, rfl⟩, ⟨?_, rfl⟩⟩
  · simp only [handleCapture, hg, Bool.false_eq_true, if_false,
      show envLapFail.screenshot = some imgTest from rfl]
    simp only [captureFinish, show lapPromise envLapFail = none from rfl]
  · simp only [handleCapture, hg, Bool.false_eq_true, if_false,
      show envResizeFail.screenshot = some imgTest from rfl]
    simp only [captureFinish,
      show lapPromise envResizeFail = some (getLaplacianVariance graySharp 4 3)
        from rfl]
    rw [if_neg hnb]
    simp only [show resizeImage envResizeFail.resizeDecodeOk
        envResizeFail.resizeCtxOk imgTest = .error "Canvas context unavailable"
        from rfl]
